import Mathlib

/-!
Verification of the medtracker adherence and dosing calculator and of the
request-validation layer in views.py, as a shallow embedding in Lean.

Embedding conventions.  Calendar dates are embedded as day ordinals (Nat):
Python date objects are totally ordered and their subtraction yields a day
count, so an ordinal embedding is faithful for comparisons and differences.
Timestamps are seconds (Nat); the date part of a timestamp is its ordinal
day, seconds divided by 86400.  Python float percentages are embedded as
exact rationals.  Python ValueError is embedded as the error branch of
Except String, carrying the message.
-/

namespace MedTracker

/-- Medication record, data-model fields from spec section 3. -/
structure Medication where
  id : Nat
  name : String
  dosage_mg : Nat
  prescribed_per_day : Int
deriving DecidableEq, Repr

/-- DoseLog record for one scheduled-dose event of one medication.  The
owning medication reference is implicit: the calculator always receives the
log list of a single medication. -/
structure DoseLog where
  taken_at : Nat
  was_taken : Bool
deriving DecidableEq, Repr

/-- The calendar date (day ordinal) of the timestamp taken_at. -/
def DoseLog.taken_at_date (l : DoseLog) : Nat :=
  l.taken_at / 86400

/-- Modelled from the spec: models.py is not under src/, so the body of
Medication.expected_doses is reconstructed from spec section 4.1 as pinned
by the repository test suite, which asserts that expected_doses 0 returns 0
(test_models.py lines 188-192 and 417-432), that negative days raise
ValueError, and that prescribed_per_day of 0 raises ValueError with message
"Days and schedule must be positive" (test_models.py lines 194-210 and
472-483). -/
def Medication.expected_doses (m : Medication) (days : Int) : Except String Int :=
  if days < 0 ∨ m.prescribed_per_day ≤ 0 then
    Except.error "Days and schedule must be positive."
  else
    Except.ok (days * m.prescribed_per_day)

/-- Modelled from the spec: models.py is not under src/.
Medication.adherence_rate over the full dose-log history, spec section 4.1:
zero logs recorded gives 0.0, otherwise the count of logs marked taken over
the total log count, times 100.  The log list argument stands for
self.doselog_set.all() of one medication (spec section 9 restates the
calculator as pure functions over explicit log lists). -/
def adherence_rate (logs : List DoseLog) : ℚ :=
  if logs.length = 0 then 0
  else ((logs.filter (fun l => l.was_taken)).length : ℚ) / (logs.length : ℚ) * 100

/-- Count of dose logs marked taken whose date lies in the inclusive range
from s to e. -/
def takenInPeriod (logs : List DoseLog) (s e : Nat) : Nat :=
  (logs.filter (fun l =>
    l.was_taken && decide (s ≤ l.taken_at_date) && decide (l.taken_at_date ≤ e))).length

/-- Modelled from the spec: models.py is not under src/.
Medication.adherence_rate_over_period, spec section 4.1: raises the
invalid-range ValueError when start_date is after end_date, computes the
inclusive day count of the range, catches a ValueError coming from
expected_doses and returns 0.0 in that case (pinned by test_models.py lines
456-470 and 517-538), and otherwise scales the ratio of the taken count in
range to the expected count to a percentage. -/
def Medication.adherence_rate_over_period (m : Medication) (logs : List DoseLog)
    (start_date end_date : Nat) : Except String ℚ :=
  if start_date > end_date then
    Except.error "Start date must be before end date."
  else
    match m.expected_doses ((end_date : Int) - (start_date : Int) + 1) with
    | Except.error _ => Except.ok 0
    | Except.ok expected =>
        Except.ok ((takenInPeriod logs start_date end_date : ℚ) / (expected : ℚ) * 100)

/-- C1: for every medication and days with days positive and
prescribed_per_day positive, expected_doses returns exactly days times
prescribed_per_day. -/
theorem claim_C1_expected_doses_product (m : Medication) (days : Int)
    (hd : 0 < days) (hp : 0 < m.prescribed_per_day) :
    m.expected_doses days = Except.ok (days * m.prescribed_per_day) := by
  have h : ¬ (days < 0 ∨ m.prescribed_per_day ≤ 0) := by
    push_neg
    exact ⟨hd.le, hp⟩
  simp [Medication.expected_doses, h]

/-- Witness for C1 at prescribed_per_day 2 and days 7, giving 14. -/
theorem claim_C1_witness :
    (Medication.mk 1 "Test Medication" 500 2).expected_doses 7 = Except.ok 14 :=
  claim_C1_expected_doses_product (Medication.mk 1 "Test Medication" 500 2) 7
    (by decide) (by decide)

/-- C2 counterexample: with prescribed_per_day 3, expected_doses at days 0
returns ok 0 instead of failing, exactly as the repository tests assert
(test_models.py lines 188-192 and 422), contradicting the claim that any
days value of at most 0 must fail. -/
theorem claim_C2_counterexample :
    (Medication.mk 1 "Aspirin" 100 3).expected_doses 0 = Except.ok 0 := rfl

/-- C2 amended: expected_doses fails with the invalid-schedule error exactly
when days is negative or prescribed_per_day is non-positive; at days 0 with
a positive schedule it returns ok 0 rather than failing. -/
theorem claim_C2_amended_error_condition (m : Medication) (days : Int) :
    (days < 0 ∨ m.prescribed_per_day ≤ 0 →
      m.expected_doses days = Except.error "Days and schedule must be positive.") ∧
    (days = 0 → 0 < m.prescribed_per_day → m.expected_doses days = Except.ok 0) := by
  constructor
  · intro h
    simp [Medication.expected_doses, h]
  · rintro rfl hp
    simp only [Medication.expected_doses]
    rw [if_neg (by push_neg; exact ⟨le_refl 0, hp⟩)]
    simp

/-- Witness for the amended C2: negative days and an unscheduled medication
both fail, and days 0 with a positive schedule returns 0. -/
theorem claim_C2_witness :
    (Medication.mk 1 "Aspirin" 100 3).expected_doses (-5)
        = Except.error "Days and schedule must be positive." ∧
    (Medication.mk 2 "As Needed" 100 0).expected_doses 5
        = Except.error "Days and schedule must be positive." ∧
    (Medication.mk 1 "Aspirin" 100 3).expected_doses 0 = Except.ok 0 :=
  ⟨(claim_C2_amended_error_condition (Medication.mk 1 "Aspirin" 100 3) (-5)).1
      (Or.inl (by decide)),
   (claim_C2_amended_error_condition (Medication.mk 2 "As Needed" 100 0) 5).1
      (Or.inr (by decide)),
   (claim_C2_amended_error_condition (Medication.mk 1 "Aspirin" 100 3) 0).2
      rfl (by decide)⟩

/-- C3: for start_date at most end_date the period adherence never fails;
in particular when the expected-doses denominator computation fails the
failure is swallowed and the result is 0. -/
theorem claim_C3_period_never_fails (m : Medication) (logs : List DoseLog)
    (s e : Nat) (h : s ≤ e) :
    (∃ q, m.adherence_rate_over_period logs s e = Except.ok q) ∧
    (∀ msg, m.expected_doses ((e : Int) - (s : Int) + 1) = Except.error msg →
      m.adherence_rate_over_period logs s e = Except.ok 0) := by
  have hne : ¬ s > e := not_lt.mpr h
  constructor
  · unfold Medication.adherence_rate_over_period
    rw [if_neg hne]
    cases hx : m.expected_doses ((e : Int) - (s : Int) + 1) with
    | error msg => exact ⟨0, rfl⟩
    | ok v => exact ⟨_, rfl⟩
  · intro msg hmsg
    unfold Medication.adherence_rate_over_period
    rw [if_neg hne, hmsg]

/-- Witness for C3: an unscheduled medication over a valid three-day range
yields 0 with no error. -/
theorem claim_C3_witness :
    (Medication.mk 1 "As Needed" 100 0).adherence_rate_over_period [] 0 2
      = Except.ok 0 :=
  (claim_C3_period_never_fails (Medication.mk 1 "As Needed" 100 0) [] 0 2
    (by decide)).2 "Days and schedule must be positive." rfl

/-- C4: with a positive schedule and a valid range, the period adherence is
100 times the count of taken logs dated inside the inclusive range, divided
by the expected-dose count for the inclusive day count of the range. -/
theorem claim_C4_period_formula (m : Medication) (logs : List DoseLog)
    (s e : Nat) (hp : 0 < m.prescribed_per_day) (h : s ≤ e) :
    m.adherence_rate_over_period logs s e =
      Except.ok (100 * (takenInPeriod logs s e : ℚ) /
        ((((e : Int) - (s : Int) + 1) * m.prescribed_per_day : Int) : ℚ)) := by
  have hne : ¬ s > e := not_lt.mpr h
  have hdays : (0 : Int) ≤ (e : Int) - (s : Int) + 1 := by
    have hse : (s : Int) ≤ (e : Int) := Int.ofNat_le.mpr h
    omega
  have hcond : ¬ (((e : Int) - (s : Int) + 1) < 0 ∨ m.prescribed_per_day ≤ 0) := by
    push_neg
    exact ⟨hdays, hp⟩
  have hexp : m.expected_doses ((e : Int) - (s : Int) + 1)
      = Except.ok (((e : Int) - (s : Int) + 1) * m.prescribed_per_day) := by
    simp [Medication.expected_doses, hcond]
  unfold Medication.adherence_rate_over_period
  rw [if_neg hne, hexp]
  simp only [Except.ok.injEq]
  push_cast
  ring

/-- Witness for C4, the spec scenario: prescribed_per_day 2 over a three-day
range with three taken and one missed log yields 50 percent. -/
theorem claim_C4_witness :
    (Medication.mk 1 "Aspirin" 100 2).adherence_rate_over_period
      [DoseLog.mk 28800 true, DoseLog.mk 72000 false,
       DoseLog.mk 115200 true, DoseLog.mk 201600 true] 0 2
      = Except.ok 50 := by
  rw [claim_C4_period_formula (Medication.mk 1 "Aspirin" 100 2)
    [DoseLog.mk 28800 true, DoseLog.mk 72000 false,
     DoseLog.mk 115200 true, DoseLog.mk 201600 true] 0 2 (by decide) (by decide)]
  norm_num [takenInPeriod, DoseLog.taken_at_date]

/-- C5: adherence_rate over the whole history is 100 times the taken count
over the total count when at least one log exists, and 0 with no logs. -/
theorem claim_C5_adherence_rate (logs : List DoseLog) :
    (logs.length = 0 → adherence_rate logs = 0) ∧
    (0 < logs.length → adherence_rate logs =
      100 * ((logs.filter (fun l => l.was_taken)).length : ℚ) / (logs.length : ℚ)) := by
  constructor
  · intro h
    simp [adherence_rate, h]
  · intro h
    unfold adherence_rate
    rw [if_neg (Nat.pos_iff_ne_zero.mp h)]
    ring

/-- Witness for C5: four logs with two taken give 50 percent, and the empty
history gives 0. -/
theorem claim_C5_witness :
    adherence_rate [DoseLog.mk 0 true, DoseLog.mk 1 false,
      DoseLog.mk 2 true, DoseLog.mk 3 false] = 50 ∧
    adherence_rate [] = 0 := by
  constructor
  · rw [(claim_C5_adherence_rate [DoseLog.mk 0 true, DoseLog.mk 1 false,
      DoseLog.mk 2 true, DoseLog.mk 3 false]).2 (by decide)]
    norm_num [List.filter]
  · exact (claim_C5_adherence_rate []).1 rfl

/-- C6: when start_date is after end_date the period adherence fails with
the invalid-range error regardless of the schedule or the logs. -/
theorem claim_C6_invalid_range (m : Medication) (logs : List DoseLog)
    (s e : Nat) (h : e < s) :
    m.adherence_rate_over_period logs s e
      = Except.error "Start date must be before end date." := by
  unfold Medication.adherence_rate_over_period
  rw [if_pos h]

/-- Witness for C6 at start 5 and end 1. -/
theorem claim_C6_witness :
    (Medication.mk 1 "Aspirin" 100 2).adherence_rate_over_period [] 5 1
      = Except.error "Start date must be before end date." :=
  claim_C6_invalid_range (Medication.mk 1 "Aspirin" 100 2) [] 5 1 (by decide)

/-- Python values as needed for the OpenFDA payload handling. -/
inductive PyVal where
  | pstr (s : String)
  | pint (n : Int)
  | pbool (b : Bool)
  | pnone
  | plist (xs : List PyVal)
  | pdict (entries : List (String × PyVal))

/-- Python truthiness of a value. -/
def PyVal.truthy : PyVal → Bool
  | PyVal.pstr s => !s.isEmpty
  | PyVal.pint n => decide (n ≠ 0)
  | PyVal.pbool b => b
  | PyVal.pnone => false
  | PyVal.plist xs => !xs.isEmpty
  | PyVal.pdict es => !es.isEmpty

/-- Python dict.get with default None, on dict payloads only. -/
def PyVal.getKey : PyVal → String → Option PyVal
  | PyVal.pdict es, k => es.lookup k
  | _, _ => none

/-- Whether a value is a Python dict. -/
def PyVal.isDict : PyVal → Bool
  | PyVal.pdict _ => true
  | _ => false

/-- The guard of views.py line 51: the payload is a dict and its error key
is present and truthy. -/
def errorKeyTruthy (v : PyVal) : Bool :=
  v.isDict && (match v.getKey "error" with
    | some x => x.truthy
    | none => false)

/-- Outcome of the external collaborator DrugInfoService.get_drug_info: a
returned payload, or a raised exception carrying its message. -/
inductive ServiceResult where
  | payload (v : PyVal)
  | exn (msg : String)

/-- Modelled from the spec: models.py is not under src/.
Medication.fetch_external_info delegates to DrugInfoService.get_drug_info
and, per spec section 6 and test_models.py lines 442-454, converts a raised
exception into a dict payload whose error key carries the exception
message; a returned payload passes through. -/
def Medication.fetch_external_info : ServiceResult → PyVal
  | ServiceResult.payload v => v
  | ServiceResult.exn msg => PyVal.pdict [("error", PyVal.pstr msg)]

/-- HTTP outcome of the info endpoint: 200 with a body, or 502 with a body. -/
inductive InfoResponse where
  | ok (body : PyVal)
  | badGateway (body : PyVal)

/-- views.py MedicationViewSet.get_external_info, lines 28-53: fetch the
external info, answer 502 when the payload is a dict with a truthy error
key, and otherwise answer 200 with the payload unchanged. -/
def MedicationViewSet.get_external_info (r : ServiceResult) : InfoResponse :=
  let data := Medication.fetch_external_info r
  if errorKeyTruthy data then InfoResponse.badGateway data
  else InfoResponse.ok data

/-- C8 counterexample: a raised exception with an empty message is mapped to
the success response, not the upstream-failure response.  The handler checks
the truthiness of the error value (views.py line 51), the empty string is
falsy in Python, so the wrapped payload takes the 200 branch even though an
exception was raised. -/
theorem claim_C8_counterexample :
    MedicationViewSet.get_external_info (ServiceResult.exn "")
      = InfoResponse.ok (PyVal.pdict [("error", PyVal.pstr "")]) := rfl

/-- C8 amended: the info handler maps a dict payload with a truthy error key
to the upstream-failure response carrying that payload, maps a raised
exception with a nonempty message (the truthy case of a Python string) to
the upstream-failure response with the message captured into the error
payload, maps a raised exception with an empty message to the success
response carrying the falsy error payload, and passes any other payload
through unchanged as a success. -/
theorem claim_C8_info_mapping :
    (∀ v : PyVal, errorKeyTruthy v = true →
      MedicationViewSet.get_external_info (ServiceResult.payload v)
        = InfoResponse.badGateway v) ∧
    (∀ msg : String, msg ≠ "" →
      MedicationViewSet.get_external_info (ServiceResult.exn msg)
        = InfoResponse.badGateway (PyVal.pdict [("error", PyVal.pstr msg)])) ∧
    (MedicationViewSet.get_external_info (ServiceResult.exn "")
      = InfoResponse.ok (PyVal.pdict [("error", PyVal.pstr "")])) ∧
    (∀ v : PyVal, errorKeyTruthy v = false →
      MedicationViewSet.get_external_info (ServiceResult.payload v)
        = InfoResponse.ok v) := by
  refine ⟨?_, ?_, rfl, ?_⟩
  · intro v hv
    simp [MedicationViewSet.get_external_info, Medication.fetch_external_info, hv]
  · intro msg hm
    have h1 : errorKeyTruthy (PyVal.pdict [("error", PyVal.pstr msg)])
        = !msg.isEmpty := rfl
    have h2 : msg.isEmpty = false := by
      rw [Bool.eq_false_iff]
      intro hh
      exact hm ((String.isEmpty_iff msg).mp hh)
    simp [MedicationViewSet.get_external_info, Medication.fetch_external_info,
      h1, h2]
  · intro v hv
    simp [MedicationViewSet.get_external_info, Medication.fetch_external_info, hv]

/-- Witness for C8: an error dict from the collaborator goes out as 502
unchanged, an exception message is wrapped into an error dict with 502, and
a results payload passes through as 200. -/
theorem claim_C8_witness :
    MedicationViewSet.get_external_info
        (ServiceResult.payload (PyVal.pdict [("error", PyVal.pstr "API rate limit exceeded")]))
      = InfoResponse.badGateway (PyVal.pdict [("error", PyVal.pstr "API rate limit exceeded")]) ∧
    MedicationViewSet.get_external_info (ServiceResult.exn "Network connection failed")
      = InfoResponse.badGateway (PyVal.pdict [("error", PyVal.pstr "Network connection failed")]) ∧
    MedicationViewSet.get_external_info
        (ServiceResult.payload (PyVal.pdict [("results", PyVal.plist [])]))
      = InfoResponse.ok (PyVal.pdict [("results", PyVal.plist [])]) :=
  ⟨claim_C8_info_mapping.1 (PyVal.pdict [("error", PyVal.pstr "API rate limit exceeded")]) rfl,
   claim_C8_info_mapping.2.1 "Network connection failed" (by decide),
   claim_C8_info_mapping.2.2.2 (PyVal.pdict [("results", PyVal.plist [])]) rfl⟩

/-- Python str whitespace, as stripped by int(). -/
def isPySpace (c : Char) : Bool :=
  c == ' ' || c == '\t' || c == '\n' || c == '\r' || c == '\x0b' || c == '\x0c'

/-- Strip leading and trailing whitespace from a character list. -/
def stripEnds (cs : List Char) : List Char :=
  ((cs.dropWhile isPySpace).reverse.dropWhile isPySpace).reverse

/-- Value of a list of decimal digit characters. -/
def digitsVal (cs : List Char) : Nat :=
  cs.foldl (fun acc c => acc * 10 + (c.toNat - 48)) 0

/-- Scan of a digit run in which every underscore is followed by a digit. -/
def pyDigitsAux : List Char → Bool
  | [] => true
  | c :: rest =>
    if c.isDigit then pyDigitsAux rest
    else if c == '_' then
      match rest with
      | [] => false
      | d :: _ => d.isDigit && pyDigitsAux rest
    else false

/-- A nonempty digit run starting with a digit, with single underscores
allowed between digits only, as Python int() accepts. -/
def pyDigitsOk : List Char → Bool
  | [] => false
  | c :: rest => c.isDigit && pyDigitsAux (c :: rest)

/-- Embedding of Python int(str): strip whitespace, allow one leading sign,
then require a digit run as above; decimals, the empty string and any other
text raise ValueError, embedded as none. -/
def pyInt (s : String) : Option Int :=
  match stripEnds s.toList with
  | '+' :: rest =>
    if pyDigitsOk rest then some (digitsVal (rest.filter (fun c => c != '_')) : Int)
    else none
  | '-' :: rest =>
    if pyDigitsOk rest then some (-(digitsVal (rest.filter (fun c => c != '_')) : Int))
    else none
  | rest =>
    if pyDigitsOk rest then some (digitsVal (rest.filter (fun c => c != '_')) : Int)
    else none

/-- views.py MedicationViewSet._validate_days_parameter, lines 96-132: the
absence check, then the integer-parse check, then the positivity check, in
that order. -/
def MedicationViewSet._validate_days_parameter (daysParam : Option String) :
    Except String Int :=
  match daysParam with
  | none => Except.error "Query parameter \x27days\x27 is required."
  | some s =>
    match pyInt s with
    | none => Except.error "Days must be a valid integer."
    | some v =>
      if v ≤ 0 then Except.error "Days must be a positive integer greater than zero."
      else Except.ok v

/-- C7: the days validation gate rejects an absent parameter with the
required message, then a parameter that does not parse as a Python int with
the valid-integer message, then a parsed value of at most 0 with the
positivity message, and otherwise passes the parsed integer through; the
parse check strictly precedes the positivity check. -/
theorem claim_C7_days_gate (p : Option String) :
    (p = none → MedicationViewSet._validate_days_parameter p
      = Except.error "Query parameter \x27days\x27 is required.") ∧
    (∀ s, p = some s → pyInt s = none →
      MedicationViewSet._validate_days_parameter p
        = Except.error "Days must be a valid integer.") ∧
    (∀ s v, p = some s → pyInt s = some v → v ≤ 0 →
      MedicationViewSet._validate_days_parameter p
        = Except.error "Days must be a positive integer greater than zero.") ∧
    (∀ s v, p = some s → pyInt s = some v → 0 < v →
      MedicationViewSet._validate_days_parameter p = Except.ok v) := by
  refine ⟨?_, ?_, ?_, ?_⟩
  · rintro rfl
    rfl
  · rintro s rfl hs
    simp [MedicationViewSet._validate_days_parameter, hs]
  · rintro s v rfl hs hv
    simp [MedicationViewSet._validate_days_parameter, hs, hv]
  · rintro s v rfl hs hv
    simp [MedicationViewSet._validate_days_parameter, hs, not_le.mpr hv]

/-- Witness for C7 over the scenario inputs of the spec: absent, "abc",
"7.5", the empty string, "0" and "7". -/
theorem claim_C7_witness :
    MedicationViewSet._validate_days_parameter none
        = Except.error "Query parameter \x27days\x27 is required." ∧
    MedicationViewSet._validate_days_parameter (some "abc")
        = Except.error "Days must be a valid integer." ∧
    MedicationViewSet._validate_days_parameter (some "7.5")
        = Except.error "Days must be a valid integer." ∧
    MedicationViewSet._validate_days_parameter (some "")
        = Except.error "Days must be a valid integer." ∧
    MedicationViewSet._validate_days_parameter (some "0")
        = Except.error "Days must be a positive integer greater than zero." ∧
    MedicationViewSet._validate_days_parameter (some "7") = Except.ok 7 :=
  ⟨(claim_C7_days_gate none).1 rfl,
   (claim_C7_days_gate (some "abc")).2.1 "abc" rfl (by decide),
   (claim_C7_days_gate (some "7.5")).2.1 "7.5" rfl (by decide),
   (claim_C7_days_gate (some "")).2.1 "" rfl (by decide),
   (claim_C7_days_gate (some "0")).2.2.1 "0" 0 rfl (by decide) (by decide),
   (claim_C7_days_gate (some "7")).2.2.2 "7" 7 rfl (by decide) (by decide)⟩

/-- HTTP outcome of the expected-doses endpoint. -/
inductive DosesResponse where
  | ok (medication_id : Nat) (days : Int) (expected : Int)
  | badRequest (msg : String)
  | notFound
deriving DecidableEq, Repr

/-- views.py MedicationViewSet.expected_doses, lines 55-94: validate the
days parameter first, then resolve the medication (404 when it does not
exist), then call the model method, mapping its ValueError onto a 400
response and a result onto a 200 body. -/
def MedicationViewSet.expected_doses (daysParam : Option String)
    (med : Option Medication) : DosesResponse :=
  match MedicationViewSet._validate_days_parameter daysParam with
  | Except.error msg => DosesResponse.badRequest msg
  | Except.ok days =>
    match med with
    | none => DosesResponse.notFound
    | some m =>
      match m.expected_doses days with
      | Except.error err => DosesResponse.badRequest err
      | Except.ok v => DosesResponse.ok m.id days v

/-- C10: whenever the days parameter fails validation, the endpoint answers
with that client error for every medication lookup outcome, in particular
for a nonexistent medication, which therefore yields the client error and
not the not-found response. -/
theorem claim_C10_gate_before_lookup (p : Option String) (msg : String)
    (h : MedicationViewSet._validate_days_parameter p = Except.error msg)
    (med : Option Medication) :
    MedicationViewSet.expected_doses p med = DosesResponse.badRequest msg := by
  unfold MedicationViewSet.expected_doses
  rw [h]

/-- Witness for C10: a non-integer days parameter against a missing
medication yields the validation client error, not the not-found
response. -/
theorem claim_C10_witness :
    MedicationViewSet.expected_doses (some "abc") none
      = DosesResponse.badRequest "Days must be a valid integer." :=
  claim_C10_gate_before_lookup (some "abc") "Days must be a valid integer." rfl none

/-- All characters are decimal digits. -/
def allDigits (cs : List Char) : Bool :=
  cs.all (fun c => c.isDigit)

/-- Gregorian leap year. -/
def isLeap (y : Nat) : Bool :=
  (y % 4 == 0 && y % 100 != 0) || y % 400 == 0

/-- Length of a month in the Gregorian calendar. -/
def daysInMonth (y m : Nat) : Nat :=
  if m = 2 then (if isLeap y then 29 else 28)
  else if m = 4 ∨ m = 6 ∨ m = 9 ∨ m = 11 then 30
  else 31

/-- Day ordinal of a Gregorian civil date with year at least 1, counted
from the era base; only comparisons and differences of ordinals are used by
the claims, so the base offset is immaterial. -/
def daysFromCivil (y m d : Nat) : Nat :=
  let y2 := if m ≤ 2 then y - 1 else y
  let era := y2 / 400
  let yoe := y2 % 400
  let mp := (m + 9) % 12
  let doy := (153 * mp + 2) / 5 + d - 1
  let doe := yoe * 365 + yoe / 4 - yoe / 100 + doy
  era * 146097 + doe

/-- Split a character list on a separator character, like the Python str
split method with one separator. -/
def splitOnChar (sep : Char) : List Char → List (List Char)
  | [] => [[]]
  | c :: rest =>
    let r := splitOnChar sep rest
    if c == sep then [] :: r
    else (c :: r.headD []) :: r.tail

/-- The three outcomes of the external Django helper parse_date: a parsed
date, the Python None for input that does not match the date pattern, and a
raised ValueError for input that matches the pattern but does not name a
valid calendar date. -/
inductive ParseDateResult where
  | ok (ordinal : Nat)
  | badFormat
  | invalid
deriving DecidableEq, Repr

/-- Embedding of the external Django helper parse_date as the view uses it.
A dash-separated digit string of four, one-or-two and one-or-two digits
matches the date pattern; when its numbers name a valid Gregorian calendar
date the result is the day ordinal, and when they do not (month 13, day 30
of February, year 0000) the date constructor raises ValueError, embedded as
invalid.  Any other input returns the Python None, embedded as
badFormat. -/
def parse_date (s : String) : ParseDateResult :=
  match splitOnChar '-' s.toList with
  | [yc, mc, dc] =>
    if allDigits yc && allDigits mc && allDigits dc && yc.length == 4 &&
        (mc.length == 1 || mc.length == 2) && (dc.length == 1 || dc.length == 2) then
      let y := digitsVal yc
      let m := digitsVal mc
      let d := digitsVal dc
      if 1 ≤ y ∧ 1 ≤ m ∧ m ≤ 12 ∧ 1 ≤ d ∧ d ≤ daysInMonth y m then
        ParseDateResult.ok (daysFromCivil y m d)
      else ParseDateResult.invalid
    else ParseDateResult.badFormat
  | _ => ParseDateResult.badFormat

/-- Ascending order on dose logs by the full taken_at timestamp. -/
def logLe (a b : DoseLog) : Prop :=
  a.taken_at ≤ b.taken_at

instance : DecidableRel logLe :=
  fun a b => Nat.decLe a.taken_at b.taken_at

instance : IsTotal DoseLog logLe :=
  ⟨fun a b => Nat.le_total a.taken_at b.taken_at⟩

instance : IsTrans DoseLog logLe :=
  ⟨fun _ _ _ h1 h2 => Nat.le_trans h1 h2⟩

/-- The date of the log lies in the inclusive ordinal range from s to e,
the taken_at__date__gte and taken_at__date__lte filter of the view. -/
def inRange (s e : Nat) (l : DoseLog) : Bool :=
  decide (s ≤ l.taken_at_date) && decide (l.taken_at_date ≤ e)

/-- HTTP outcome of the date filter endpoint: 200 with the log list, 400
with a message, or an unhandled server error (a ValueError escaping the
handler, which has no try block). -/
inductive FilterResponse where
  | ok (logs : List DoseLog)
  | badRequest (msg : String)
  | serverError
deriving DecidableEq, Repr

/-- views.py DoseLogViewSet.filter_by_date, lines 155-198: reject with 400
when either parameter is absent, then parse the start and the end in that
order, where a ValueError raised by the collaborator on a well-formed but
invalid date escapes uncaught as a server error; reject with 400 when
either parse returned None; otherwise return the logs dated inside the
inclusive range ordered by taken_at ascending (a stable sort models the
order_by override of the default most-recent-first ordering). -/
def DoseLogViewSet.filter_by_date (logs : List DoseLog)
    (startParam endParam : Option String) : FilterResponse :=
  match startParam, endParam with
  | some ss, some es =>
    match parse_date ss with
    | ParseDateResult.invalid => FilterResponse.serverError
    | ParseDateResult.badFormat =>
      match parse_date es with
      | ParseDateResult.invalid => FilterResponse.serverError
      | _ =>
          FilterResponse.badRequest "Both \x27start\x27 and \x27end\x27 must be valid dates in YYYY-MM-DD format."
    | ParseDateResult.ok s =>
      match parse_date es with
      | ParseDateResult.invalid => FilterResponse.serverError
      | ParseDateResult.badFormat =>
          FilterResponse.badRequest "Both \x27start\x27 and \x27end\x27 must be valid dates in YYYY-MM-DD format."
      | ParseDateResult.ok e =>
          FilterResponse.ok (List.insertionSort logLe (logs.filter (inRange s e)))
  | _, _ =>
      FilterResponse.badRequest "Both \x27start\x27 and \x27end\x27 query parameters are required and must be valid dates."

/-- C9 counterexample: the well-formed but invalid date 2025-02-30 matches
the date pattern, so the collaborator does not return None; instead the
date constructor raises ValueError, which the handler does not catch.  The
request ends as an unhandled server error, not the client-error category
the claim requires for every date that fails to parse. -/
theorem claim_C9_counterexample :
    DoseLogViewSet.filter_by_date [] (some "2025-02-30") (some "2025-03-01")
      = FilterResponse.serverError := rfl

/-- C9 amended: the dose-log date filter rejects a request with a missing
parameter with the 400 client error, lets the ValueError of a well-formed
but invalid date escape as an unhandled server error (checking start before
end), rejects a request whose dates do not match the date pattern with the
400 client error, and otherwise returns exactly the logs whose taken_at
date lies inclusively within the range, ordered by taken_at ascending. -/
theorem claim_C9_filter_by_date (logs : List DoseLog) (sp ep : Option String) :
    (sp = none ∨ ep = none → DoseLogViewSet.filter_by_date logs sp ep
      = FilterResponse.badRequest "Both \x27start\x27 and \x27end\x27 query parameters are required and must be valid dates.") ∧
    (∀ ss es, sp = some ss → ep = some es →
      parse_date ss = ParseDateResult.invalid →
      DoseLogViewSet.filter_by_date logs sp ep = FilterResponse.serverError) ∧
    (∀ ss es, sp = some ss → ep = some es →
      parse_date ss ≠ ParseDateResult.invalid →
      parse_date es = ParseDateResult.invalid →
      DoseLogViewSet.filter_by_date logs sp ep = FilterResponse.serverError) ∧
    (∀ ss es, sp = some ss → ep = some es →
      parse_date ss ≠ ParseDateResult.invalid →
      parse_date es ≠ ParseDateResult.invalid →
      (parse_date ss = ParseDateResult.badFormat ∨ parse_date es = ParseDateResult.badFormat) →
      DoseLogViewSet.filter_by_date logs sp ep
        = FilterResponse.badRequest "Both \x27start\x27 and \x27end\x27 must be valid dates in YYYY-MM-DD format.") ∧
    (∀ ss es s e, sp = some ss → ep = some es →
      parse_date ss = ParseDateResult.ok s → parse_date es = ParseDateResult.ok e →
      ∃ res, DoseLogViewSet.filter_by_date logs sp ep = FilterResponse.ok res ∧
        List.Perm res (logs.filter (inRange s e)) ∧
        List.Sorted logLe res ∧
        (∀ l, l ∈ res ↔ l ∈ logs ∧ s ≤ l.taken_at_date ∧ l.taken_at_date ≤ e)) := by
  refine ⟨?_, ?_, ?_, ?_, ?_⟩
  · rintro (rfl | rfl)
    · rfl
    · cases sp <;> rfl
  · rintro ss es rfl rfl hs
    simp [DoseLogViewSet.filter_by_date, hs]
  · rintro ss es rfl rfl hs he
    cases hss : parse_date ss with
    | ok s => simp [DoseLogViewSet.filter_by_date, hss, he]
    | badFormat => simp [DoseLogViewSet.filter_by_date, hss, he]
    | invalid => exact absurd hss hs
  · rintro ss es rfl rfl hs he hbf
    cases hss : parse_date ss with
    | invalid => exact absurd hss hs
    | badFormat =>
      cases hes : parse_date es with
      | invalid => exact absurd hes he
      | badFormat => simp [DoseLogViewSet.filter_by_date, hss, hes]
      | ok e => simp [DoseLogViewSet.filter_by_date, hss, hes]
    | ok s =>
      cases hes : parse_date es with
      | invalid => exact absurd hes he
      | badFormat => simp [DoseLogViewSet.filter_by_date, hss, hes]
      | ok e =>
        rcases hbf with h | h
        · rw [hss] at h
          exact ParseDateResult.noConfusion h
        · rw [hes] at h
          exact ParseDateResult.noConfusion h
  · rintro ss es s e rfl rfl hs he
    refine ⟨List.insertionSort logLe (logs.filter (inRange s e)), ?_, ?_, ?_, ?_⟩
    · simp [DoseLogViewSet.filter_by_date, hs, he]
    · exact List.perm_insertionSort logLe (logs.filter (inRange s e))
    · exact List.sorted_insertionSort logLe (logs.filter (inRange s e))
    · intro l
      simp [List.mem_insertionSort, List.mem_filter, inRange, and_assoc]

/-- Witness for C9: a single log dated 2025-01-02 is returned for the range
2025-01-01 to 2025-01-03. -/
theorem claim_C9_witness :
    ∃ res, DoseLogViewSet.filter_by_date [DoseLog.mk 63897840000 true]
        (some "2025-01-01") (some "2025-01-03") = FilterResponse.ok res ∧
      List.Perm res ([DoseLog.mk 63897840000 true].filter (inRange 739557 739559)) ∧
      List.Sorted logLe res ∧
      (∀ l, l ∈ res ↔ l ∈ [DoseLog.mk 63897840000 true] ∧
        739557 ≤ l.taken_at_date ∧ l.taken_at_date ≤ 739559) :=
  (claim_C9_filter_by_date [DoseLog.mk 63897840000 true]
      (some "2025-01-01") (some "2025-01-03")).2.2.2.2
    "2025-01-01" "2025-01-03" 739557 739559 rfl rfl (by decide) (by decide)

end MedTracker
